import Mathlib

/-!
Verification of the fungible-token ledger pallet
(`src/pallets/template/src/lib.rs`).

The pallet stores three mappings:
  * `BalanceOf  : AccountId → u64` (a `StorageMap`, entries may be absent),
  * `Allowance  : (AccountId, AccountId) → u64`,
  * `TotalSupply : u64` (a `StorageValue`, possibly unset).

We embed the storage as a `Ledger` record of `Option`-valued maps over
`Nat` account identifiers, and the private operation bodies
(`_total_supply`, `_balance_of`, `_balance_set`,
`_check_if_user_has_balance_or_set_zero`, `_transfer`, `_approve`,
`_transfer_from`) as Lean functions that thread the ledger state
explicitly and return the new state together with the `Result`.

Balances are `u64` in the source; arithmetic on them is represented on
`Nat` with an explicit `% 2^64` at the one place the source performs an
unchecked addition (`to_balance + value`), which in the compiled runtime
wraps modulo `2^64`.  Subtraction only ever happens under a `>=` guard,
so `Nat` subtraction agrees with `u64` subtraction there.
-/

/-- Modulus of the unsigned 64-bit balance type. -/
def U64 : Nat := 2 ^ 64

/-- The error enum of the pallet (`Error<T>` in the source). -/
inductive Err where
  | AccountNotExist
  | StorageOverflow
  | InsufficientFunds
  | ApprovalNotGranted
deriving DecidableEq, Repr

/-- The three storage items of the pallet: `BalanceOf`, `Allowance` and
`TotalSupply`.  `none` models an absent storage entry. -/
structure Ledger where
  balances : Nat → Option Nat
  allowances : Nat × Nat → Option Nat
  totalSupply : Option Nat

/-- The empty storage: no balance entries, no allowance entries,
`TotalSupply` unset. -/
def emptyLedger : Ledger :=
  { balances := fun _ => none, allowances := fun _ => none, totalSupply := none }

/-- `<TotalSupply<T>>::get().unwrap_or(0)`. -/
def _total_supply (s : Ledger) : Nat :=
  (s.totalSupply).getD 0

/-- `<BalanceOf<T>>::get(who).unwrap_or(0)`. -/
def _balance_of (s : Ledger) (who : Nat) : Nat :=
  (s.balances who).getD 0

/-- `<BalanceOf<T>>::insert(who, balance)`. -/
def _balance_set (s : Ledger) (who : Nat) (balance : Nat) : Ledger :=
  { s with balances := fun a => if a = who then some balance else s.balances a }

/-- `<Allowance<T>>::insert((from, to), value)`. -/
def _allowance_insert (s : Ledger) (k : Nat × Nat) (value : Nat) : Ledger :=
  { s with allowances := fun a => if a = k then some value else s.allowances a }

/-- `_check_if_user_has_balance_or_set_zero`: if `who` has no balance
entry, insert a zero entry; return the (now guaranteed) stored balance
together with the possibly mutated storage. -/
def _check_if_user_has_balance_or_set_zero (s : Ledger) (who : Nat) : Nat × Ledger :=
  let s1 := if (s.balances who).isSome then s else _balance_set s who 0
  ((s1.balances who).getD 0, s1)

/-- `_transfer(from, to, value)`: require `from` to have a balance entry,
read its balance, zero-touch `to_`, require sufficiency, then debit and
credit (the credit is the source's unchecked `u64` addition, hence the
`% U64`).  Returns the post-call storage and the `Result`. -/
def _transfer (s : Ledger) (from_ to_ value : Nat) : Ledger × Except Err Unit :=
  if (s.balances from_).isSome then
    let from_balance := _balance_of s from_
    let r := _check_if_user_has_balance_or_set_zero s to_
    if from_balance ≥ value then
      let s2 := _balance_set r.2 from_ (from_balance - value)
      let s3 := _balance_set s2 to_ ((r.1 + value) % U64)
      (s3, Except.ok ())
    else (r.2, Except.error Err.InsufficientFunds)
  else (s, Except.error Err.InsufficientFunds)

/-- `_approve(from, to, value)`: same guard and fund movement as
`_transfer`, and additionally overwrite the allowance entry for
`(from, to)` with exactly `value`. -/
def _approve (s : Ledger) (from_ to_ value : Nat) : Ledger × Except Err Unit :=
  match s.balances from_ with
  | none => (s, Except.error Err.InsufficientFunds)
  | some from_balance =>
    let r := _check_if_user_has_balance_or_set_zero s to_
    if from_balance ≥ value then
      let s2 := _balance_set r.2 from_ (from_balance - value)
      let s3 := _balance_set s2 to_ ((r.1 + value) % U64)
      let s4 := _allowance_insert s3 (from_, to_) value
      (s4, Except.ok ())
    else (r.2, Except.error Err.InsufficientFunds)

/-- `_transfer_from(from, to, value)`: require `from` to have a balance
entry, zero-touch both `from` and `to`, require sufficiency, look up the
allowance for `(from, to)` (absence is `ApprovalNotGranted`), require it
to cover `value`, then debit, credit and decrement the allowance. -/
def _transfer_from (s : Ledger) (from_ to_ value : Nat) : Ledger × Except Err Unit :=
  if (s.balances from_).isSome then
    let r1 := _check_if_user_has_balance_or_set_zero s from_
    let r2 := _check_if_user_has_balance_or_set_zero r1.2 to_
    if r1.1 ≥ value then
      match r2.2.allowances (from_, to_) with
      | none => (r2.2, Except.error Err.ApprovalNotGranted)
      | some from_approve =>
        if from_approve ≥ value then
          let s3 := _balance_set r2.2 from_ (r1.1 - value)
          let s4 := _balance_set s3 to_ ((r2.1 + value) % U64)
          let s5 := _allowance_insert s4 (from_, to_) (from_approve - value)
          (s5, Except.ok ())
        else (r2.2, Except.error Err.ApprovalNotGranted)
    else (r2.2, Except.error Err.InsufficientFunds)
  else (s, Except.error Err.InsufficientFunds)

/-- The six dispatchable operations of the pallet (`total_supply`,
`balance_of`, `set_balance`, `transfer`, `approve`, `transfer_from`),
with origin authentication abstracted away: `set_balance`'s signer and
`transfer`'s origin appear as explicit account arguments. -/
inductive Op where
  | total_supply
  | balance_of (user : Nat)
  | set_balance (who : Nat) (balance : Nat)
  | transfer (from_ to_ value : Nat)
  | approve (from_ to_ value : Nat)
  | transfer_from (from_ to_ value : Nat)

/-- Run one dispatchable: resulting storage and dispatch result.  The
two queries and `set_balance` cannot fail. -/
def runOp (s : Ledger) : Op → Ledger × Except Err Unit
  | Op.total_supply => (s, Except.ok ())
  | Op.balance_of _ => (s, Except.ok ())
  | Op.set_balance who b => (_balance_set s who b, Except.ok ())
  | Op.transfer f t v => _transfer s f t v
  | Op.approve f t v => _approve s f t v
  | Op.transfer_from f t v => _transfer_from s f t v

/-- Run a sequence of dispatchables, keeping only the storage. -/
def runOps (s : Ledger) (l : List Op) : Ledger :=
  l.foldl (fun st op => (runOp st op).1) s

instance : DecidableEq (Except Err Unit) := fun a b =>
  match a, b with
  | Except.ok (), Except.ok () => isTrue rfl
  | Except.error e1, Except.error e2 =>
    if h : e1 = e2 then isTrue (congrArg Except.error h)
    else isFalse (fun hc => h (Except.error.inj hc))
  | Except.ok (), Except.error _ => isFalse (fun hc => Except.noConfusion hc)
  | Except.error _, Except.ok () => isFalse (fun hc => Except.noConfusion hc)

/-! ### Helper lemmas about the storage primitives -/

theorem balance_set_balances (s : Ledger) (w b x : Nat) :
    (_balance_set s w b).balances x = if x = w then some b else s.balances x := rfl

theorem balance_set_allowances (s : Ledger) (w b : Nat) :
    (_balance_set s w b).allowances = s.allowances := rfl

theorem balance_set_totalSupply (s : Ledger) (w b : Nat) :
    (_balance_set s w b).totalSupply = s.totalSupply := rfl

theorem allowance_insert_allowances (s : Ledger) (k : Nat × Nat) (v : Nat) (x : Nat × Nat) :
    (_allowance_insert s k v).allowances x = if x = k then some v else s.allowances x := rfl

theorem allowance_insert_balances (s : Ledger) (k : Nat × Nat) (v : Nat) :
    (_allowance_insert s k v).balances = s.balances := rfl

theorem allowance_insert_totalSupply (s : Ledger) (k : Nat × Nat) (v : Nat) :
    (_allowance_insert s k v).totalSupply = s.totalSupply := rfl

theorem check_fst (s : Ledger) (w : Nat) :
    (_check_if_user_has_balance_or_set_zero s w).1 = (s.balances w).getD 0 := by
  unfold _check_if_user_has_balance_or_set_zero
  cases h : s.balances w <;> simp [h, _balance_set]

theorem check_balances (s : Ledger) (w x : Nat) :
    (_check_if_user_has_balance_or_set_zero s w).2.balances x
      = if x = w then some ((s.balances w).getD 0) else s.balances x := by
  unfold _check_if_user_has_balance_or_set_zero
  cases h : s.balances w with
  | none => simp [h, _balance_set]
  | some b =>
    simp only [h, Option.isSome_some, if_true, Option.getD_some]
    split
    case isTrue heq => rw [heq, h]
    case isFalse => rfl

theorem check_allowances (s : Ledger) (w : Nat) :
    (_check_if_user_has_balance_or_set_zero s w).2.allowances = s.allowances := by
  unfold _check_if_user_has_balance_or_set_zero
  cases h : (s.balances w).isSome <;> simp [h, _balance_set]

theorem check_totalSupply (s : Ledger) (w : Nat) :
    (_check_if_user_has_balance_or_set_zero s w).2.totalSupply = s.totalSupply := by
  unfold _check_if_user_has_balance_or_set_zero
  cases h : (s.balances w).isSome <;> simp [h, _balance_set]

/-! ### Concrete ledgers used by counterexamples and witnesses -/

/-- Account 0 holds 1000, account 1 holds 7, nothing else is set. -/
def wLedger1 : Ledger := _balance_set (_balance_set emptyLedger 0 1000) 1 7

/-- Account 0 holds 5, nothing else is set. -/
def wLedger2 : Ledger := _balance_set emptyLedger 0 5

/-- Account 0 holds 1 and account 1 holds the maximal `u64` value. -/
def wLedgerMax : Ledger := _balance_set (_balance_set emptyLedger 0 1) 1 (2 ^ 64 - 1)

/-! ### C1: transfer success, debit/credit and conservation -/

/-- C1 (counterexample): the claim quantifies over every destination
`to`, including `to = from`.  For `from = to = 0` with stored balance 5
and `v = 3`, the transfer succeeds but account 0 ends with balance 8
(the credit, computed from the pre-debit read, overwrites the debit),
not `b - v = 2` as the claim requires. -/
theorem C1_self_transfer_violates_claim :
    wLedger2.balances 0 = some 5 ∧ 3 ≤ 5 ∧
    (_transfer wLedger2 0 0 3).2 = Except.ok () ∧
    ¬ (_balance_of (_transfer wLedger2 0 0 3).1 0 = 5 - 3) := by decide

/-- C1 (amended): for `from ≠ to`, a `from` with stored balance
`b ≥ v`, and a credit that does not overflow 64 bits,
`transfer(from, to, v)` succeeds, `from` ends with `b - v`, `to` ends
with its old balance plus `v`, and the sum of the two balances is
unchanged. -/
theorem transfer_conservation (s : Ledger) (f t v b : Nat)
    (hf : s.balances f = some b) (hv : v ≤ b) (hne : f ≠ t)
    (hov : _balance_of s t + v < U64) :
    (_transfer s f t v).2 = Except.ok () ∧
    _balance_of (_transfer s f t v).1 f = b - v ∧
    _balance_of (_transfer s f t v).1 t = _balance_of s t + v ∧
    _balance_of (_transfer s f t v).1 f + _balance_of (_transfer s f t v).1 t
      = _balance_of s f + _balance_of s t := by
  have hb : _balance_of s f = b := by simp [_balance_of, hf]
  have hfb : _balance_of (_transfer s f t v).1 f = b - v := by
    unfold _transfer
    simp [hf, hb, hv, _balance_of, balance_set_balances, hne]
  have htb : _balance_of (_transfer s f t v).1 t = _balance_of s t + v := by
    unfold _transfer
    simp only [_balance_of] at hov ⊢
    simp [hf, hb, hv, balance_set_balances, check_fst, Nat.mod_eq_of_lt hov]
  refine ⟨?_, hfb, htb, ?_⟩
  · unfold _transfer
    simp [hf, hb, hv]
  · rw [hfb, htb, hb]
    omega

/-- Witness for the amended C1 on the concrete ledger `wLedger1`. -/
theorem transfer_conservation_witness :
    (wLedger1.balances 0 = some 1000 ∧ (300 : Nat) ≤ 1000 ∧ (0 : Nat) ≠ 1 ∧
      _balance_of wLedger1 1 + 300 < U64) ∧
    ((_transfer wLedger1 0 1 300).2 = Except.ok () ∧
      _balance_of (_transfer wLedger1 0 1 300).1 0 = 1000 - 300 ∧
      _balance_of (_transfer wLedger1 0 1 300).1 1 = _balance_of wLedger1 1 + 300 ∧
      _balance_of (_transfer wLedger1 0 1 300).1 0 + _balance_of (_transfer wLedger1 0 1 300).1 1
        = _balance_of wLedger1 0 + _balance_of wLedger1 1) :=
  ⟨⟨by decide, by decide, by decide, by decide⟩,
    transfer_conservation wLedger1 0 1 300 1000 (by decide) (by decide) (by decide) (by decide)⟩

/-! ### C2: approve moves funds and overwrites the allowance -/

/-- C2 (counterexample): the claim quantifies over every starting state,
including one where the credit overflows 64 bits.  With account 0
holding 1 and account 1 holding `2^64 - 1`, `approve(0, 1, 1)` succeeds
but account 1's balance wraps to 0 instead of being credited by 1. -/
theorem C2_approve_credit_wraps :
    wLedgerMax.balances 0 = some 1 ∧ 1 ≤ 1 ∧
    (_approve wLedgerMax 0 1 1).2 = Except.ok () ∧
    ¬ (_balance_of (_approve wLedgerMax 0 1 1).1 1 = _balance_of wLedgerMax 1 + 1) := by
  decide

/-- C2 (amended): for `from ≠ to`, a `from` with stored balance
`b ≥ v`, and a credit that does not overflow 64 bits,
`approve(from, to, v)` succeeds, debits `from` by `v`, credits `to` by
`v`, and stores exactly `v` as the allowance of `(from, to)`,
overwriting any previous entry. -/
theorem approve_moves_funds_and_overwrites_allowance (s : Ledger) (f t v b : Nat)
    (hf : s.balances f = some b) (hv : v ≤ b) (hne : f ≠ t)
    (hov : _balance_of s t + v < U64) :
    (_approve s f t v).2 = Except.ok () ∧
    _balance_of (_approve s f t v).1 f = b - v ∧
    _balance_of (_approve s f t v).1 t = _balance_of s t + v ∧
    (_approve s f t v).1.allowances (f, t) = some v := by
  refine ⟨?_, ?_, ?_, ?_⟩
  · unfold _approve
    simp [hf, hv]
  · unfold _approve
    simp [hf, hv, _balance_of, allowance_insert_balances, balance_set_balances, hne]
  · unfold _approve
    simp only [_balance_of] at hov ⊢
    simp [hf, hv, allowance_insert_balances, balance_set_balances, check_fst,
      Nat.mod_eq_of_lt hov]
  · unfold _approve
    simp [hf, hv, allowance_insert_allowances]

/-- Witness for the amended C2 on the concrete ledger `wLedger1`. -/
theorem approve_witness :
    (wLedger1.balances 0 = some 1000 ∧ (200 : Nat) ≤ 1000 ∧ (0 : Nat) ≠ 1 ∧
      _balance_of wLedger1 1 + 200 < U64) ∧
    ((_approve wLedger1 0 1 200).2 = Except.ok () ∧
      _balance_of (_approve wLedger1 0 1 200).1 0 = 1000 - 200 ∧
      _balance_of (_approve wLedger1 0 1 200).1 1 = _balance_of wLedger1 1 + 200 ∧
      (_approve wLedger1 0 1 200).1.allowances (0, 1) = some 200) :=
  ⟨⟨by decide, by decide, by decide, by decide⟩,
    approve_moves_funds_and_overwrites_allowance wLedger1 0 1 200 1000
      (by decide) (by decide) (by decide) (by decide)⟩

/-! ### C3: transfer_from debits, credits and decrements the allowance -/

/-- C3 (counterexample): the claim quantifies over every destination,
including `to = from`.  With account 0 holding 5 and allowance
`(0, 0) = 4`, `transfer_from(0, 0, 3)` succeeds but account 0 ends with
balance 8 (credit overwrites debit), not `b - v = 2` as claimed. -/
theorem C3_self_transfer_from_violates_claim :
    (_allowance_insert wLedger2 (0, 0) 4).balances 0 = some 5 ∧ 3 ≤ 5 ∧
    (_allowance_insert wLedger2 (0, 0) 4).allowances (0, 0) = some 4 ∧ 3 ≤ 4 ∧
    (_transfer_from (_allowance_insert wLedger2 (0, 0) 4) 0 0 3).2 = Except.ok () ∧
    ¬ (_balance_of (_transfer_from (_allowance_insert wLedger2 (0, 0) 4) 0 0 3).1 0 = 5 - 3) := by
  decide

/-- C3 (amended): for `from ≠ to`, a `from` with stored balance
`b ≥ v`, a stored allowance `a0 ≥ v` for `(from, to)`, and a credit that
does not overflow 64 bits, `transfer_from(from, to, v)` succeeds, debits
`from` by `v`, credits `to` by `v`, and stores `a0 - v` as the allowance
of `(from, to)` — the entry remains present even when `a0 - v = 0`. -/
theorem transfer_from_spends_allowance (s : Ledger) (f t v b a0 : Nat)
    (hf : s.balances f = some b) (hv : v ≤ b)
    (ha : s.allowances (f, t) = some a0) (hav : v ≤ a0) (hne : f ≠ t)
    (hov : _balance_of s t + v < U64) :
    (_transfer_from s f t v).2 = Except.ok () ∧
    _balance_of (_transfer_from s f t v).1 f = b - v ∧
    _balance_of (_transfer_from s f t v).1 t = _balance_of s t + v ∧
    (_transfer_from s f t v).1.allowances (f, t) = some (a0 - v) := by
  have hne' : t ≠ f := Ne.symm hne
  refine ⟨?_, ?_, ?_, ?_⟩
  · unfold _transfer_from
    simp [hf, hv, check_fst, check_allowances, check_balances, ha, hav]
  · unfold _transfer_from
    simp [hf, hv, check_fst, check_allowances, check_balances, ha, hav, _balance_of,
      allowance_insert_balances, balance_set_balances, hne, hne']
  · unfold _transfer_from
    simp only [_balance_of] at hov ⊢
    simp [hf, hv, check_fst, check_allowances, check_balances, ha, hav,
      allowance_insert_balances, balance_set_balances, hne, hne', Nat.mod_eq_of_lt hov]
  · unfold _transfer_from
    simp [hf, hv, check_fst, check_allowances, check_balances, ha, hav,
      allowance_insert_allowances]

/-- Witness for the amended C3 on `wLedger1` extended with allowance
`(0, 1) = 500`. -/
theorem transfer_from_witness :
    ((_allowance_insert wLedger1 (0, 1) 500).balances 0 = some 1000 ∧ (150 : Nat) ≤ 1000 ∧
      (_allowance_insert wLedger1 (0, 1) 500).allowances (0, 1) = some 500 ∧
      (150 : Nat) ≤ 500 ∧ (0 : Nat) ≠ 1 ∧
      _balance_of (_allowance_insert wLedger1 (0, 1) 500) 1 + 150 < U64) ∧
    ((_transfer_from (_allowance_insert wLedger1 (0, 1) 500) 0 1 150).2 = Except.ok () ∧
      _balance_of (_transfer_from (_allowance_insert wLedger1 (0, 1) 500) 0 1 150).1 0
        = 1000 - 150 ∧
      _balance_of (_transfer_from (_allowance_insert wLedger1 (0, 1) 500) 0 1 150).1 1
        = _balance_of (_allowance_insert wLedger1 (0, 1) 500) 1 + 150 ∧
      (_transfer_from (_allowance_insert wLedger1 (0, 1) 500) 0 1 150).1.allowances (0, 1)
        = some (500 - 150)) :=
  ⟨⟨by decide, by decide, by decide, by decide, by decide, by decide⟩,
    transfer_from_spends_allowance (_allowance_insert wLedger1 (0, 1) 500) 0 1 150 1000 500
      (by decide) (by decide) (by decide) (by decide) (by decide) (by decide)⟩

/-! ### C4: overflow behaviour of the credit in transfer -/

/-- C4 (failing input): with account 0 holding 1 and account 1 holding
`2^64 - 1`, `transfer(0, 1, 1)` does not fail with `StorageOverflow`;
the unchecked `u64` addition wraps and account 1 ends with balance 0. -/
theorem C4_transfer_wraps_instead_of_failing :
    wLedgerMax.balances 1 = some (2 ^ 64 - 1) ∧
    (_transfer wLedgerMax 0 1 1).2 = Except.ok () ∧
    (_transfer wLedgerMax 0 1 1).2 ≠ Except.error Err.StorageOverflow ∧
    _balance_of (_transfer wLedgerMax 0 1 1).1 1 = 0 := by decide

/-! ### C5: when transfer_from signals ApprovalNotGranted -/

/-- C5 (counterexample): `transfer_from(0, 1, 3)` with account 0 holding
5, allowance `(0, 1) = 1` and account 1 absent fails with
`ApprovalNotGranted` as claimed, yet it does mutate storage: the failed
call creates a zero-valued balance entry for account 1. -/
theorem C5_failed_transfer_from_still_zero_touches :
    (_allowance_insert wLedger2 (0, 1) 1).balances 1 = none ∧
    (_transfer_from (_allowance_insert wLedger2 (0, 1) 1) 0 1 3).2
      = Except.error Err.ApprovalNotGranted ∧
    (_transfer_from (_allowance_insert wLedger2 (0, 1) 1) 0 1 3).1.balances 1 = some 0 := by
  decide

/-- C5 (amended): `transfer_from(from, to, v)` fails with
`ApprovalNotGranted` exactly when `from` has a stored balance of at
least `v` and the allowance entry for `(from, to)` is absent or smaller
than `v`; in that case the only mutation is the zero-touch of the
balance entries of `from` and `to` (so allowances, total supply, and
every balance other than `to`'s are untouched, and `to` holds its old
effective balance as an explicit entry). -/
theorem transfer_from_approval_not_granted (s : Ledger) (f t v : Nat) :
    ((_transfer_from s f t v).2 = Except.error Err.ApprovalNotGranted ↔
      (∃ b, s.balances f = some b ∧ v ≤ b) ∧
      (∀ a, s.allowances (f, t) = some a → a < v)) ∧
    ((_transfer_from s f t v).2 = Except.error Err.ApprovalNotGranted →
      (_transfer_from s f t v).1.allowances = s.allowances ∧
      (_transfer_from s f t v).1.totalSupply = s.totalSupply ∧
      (∀ x, x ≠ t → (_transfer_from s f t v).1.balances x = s.balances x) ∧
      (_transfer_from s f t v).1.balances t = some (_balance_of s t)) := by
  cases hf : s.balances f with
  | none =>
    have hres : _transfer_from s f t v = (s, Except.error Err.InsufficientFunds) := by
      unfold _transfer_from
      simp [hf]
    rw [hres]
    simp [hf]
  | some b =>
    have hfs : (s.balances f).isSome = true := by simp [hf]
    have hbalx : ∀ x, x ≠ t →
        (_check_if_user_has_balance_or_set_zero
          (_check_if_user_has_balance_or_set_zero s f).2 t).2.balances x = s.balances x := by
      intro x hx
      simp only [check_balances]
      by_cases hxf : x = f
      · subst hxf
        simp [hx, hf]
      · simp [hx, hxf]
    have hbalt :
        (_check_if_user_has_balance_or_set_zero
          (_check_if_user_has_balance_or_set_zero s f).2 t).2.balances t
          = some ((s.balances t).getD 0) := by
      simp only [check_balances]
      by_cases htf : t = f
      · subst htf
        simp [hf]
      · simp [htf]
    have hallow :
        (_check_if_user_has_balance_or_set_zero
          (_check_if_user_has_balance_or_set_zero s f).2 t).2.allowances = s.allowances := by
      rw [check_allowances, check_allowances]
    have hts :
        (_check_if_user_has_balance_or_set_zero
          (_check_if_user_has_balance_or_set_zero s f).2 t).2.totalSupply = s.totalSupply := by
      rw [check_totalSupply, check_totalSupply]
    by_cases hv : v ≤ b
    · cases ha : s.allowances (f, t) with
      | none =>
        have hres : _transfer_from s f t v =
            ((_check_if_user_has_balance_or_set_zero
              (_check_if_user_has_balance_or_set_zero s f).2 t).2,
             Except.error Err.ApprovalNotGranted) := by
          unfold _transfer_from
          simp [hfs, check_fst, hf, hv, check_allowances, ha]
        rw [hres]
        constructor
        · simp only [true_iff]
          refine ⟨⟨b, rfl, hv⟩, ?_⟩
          simp [ha]
        · intro _
          exact ⟨hallow, hts, hbalx, by rw [hbalt]; rfl⟩
      | some a0 =>
        by_cases hav : v ≤ a0
        · have hres : (_transfer_from s f t v).2 = Except.ok () := by
            unfold _transfer_from
            simp [hfs, check_fst, hf, hv, check_allowances, ha, hav]
          rw [hres]
          constructor
          · simp [ha]
            omega
          · intro h
            cases h
        · have hres : _transfer_from s f t v =
              ((_check_if_user_has_balance_or_set_zero
                (_check_if_user_has_balance_or_set_zero s f).2 t).2,
               Except.error Err.ApprovalNotGranted) := by
            unfold _transfer_from
            simp [hfs, check_fst, hf, hv, check_allowances, ha, hav]
          rw [hres]
          constructor
          · simp only [true_iff]
            refine ⟨⟨b, rfl, hv⟩, ?_⟩
            intro a haa
            injection haa with h2
            omega
          · intro _
            exact ⟨hallow, hts, hbalx, by rw [hbalt]; rfl⟩
    · have hres : (_transfer_from s f t v).2 = Except.error Err.InsufficientFunds := by
        unfold _transfer_from
        simp [hfs, check_fst, hf, hv]
      rw [hres]
      refine ⟨⟨fun h => absurd h (by decide), fun h => ?_⟩, fun h => absurd h (by decide)⟩
      rcases h with ⟨⟨b1, hb1, hv1⟩, -⟩
      injection hb1 with h2
      omega


/-- Witness for the amended C5 at a concrete state where the allowance
is too small and the destination is absent. -/
theorem transfer_from_approval_not_granted_witness :
    (((_transfer_from (_allowance_insert wLedger2 (0, 2) 1) 0 2 4).2
        = Except.error Err.ApprovalNotGranted ↔
      (∃ b, (_allowance_insert wLedger2 (0, 2) 1).balances 0 = some b ∧ 4 ≤ b) ∧
      (∀ a, (_allowance_insert wLedger2 (0, 2) 1).allowances (0, 2) = some a → a < 4)) ∧
    ((_transfer_from (_allowance_insert wLedger2 (0, 2) 1) 0 2 4).2
        = Except.error Err.ApprovalNotGranted →
      (_transfer_from (_allowance_insert wLedger2 (0, 2) 1) 0 2 4).1.allowances
        = (_allowance_insert wLedger2 (0, 2) 1).allowances ∧
      (_transfer_from (_allowance_insert wLedger2 (0, 2) 1) 0 2 4).1.totalSupply
        = (_allowance_insert wLedger2 (0, 2) 1).totalSupply ∧
      (∀ x, x ≠ 2 →
        (_transfer_from (_allowance_insert wLedger2 (0, 2) 1) 0 2 4).1.balances x
          = (_allowance_insert wLedger2 (0, 2) 1).balances x) ∧
      (_transfer_from (_allowance_insert wLedger2 (0, 2) 1) 0 2 4).1.balances 2
        = some (_balance_of (_allowance_insert wLedger2 (0, 2) 1) 2))) :=
  transfer_from_approval_not_granted (_allowance_insert wLedger2 (0, 2) 1) 0 2 4

/-! ### C6: transfer from a never-written source mutates nothing -/

/-- C6 (confirmed): if `from` has no balance entry, `transfer` fails
with `InsufficientFunds` and returns the storage exactly as it was. -/
theorem transfer_missing_source_no_mutation (s : Ledger) (f t v : Nat)
    (h : s.balances f = none) :
    _transfer s f t v = (s, Except.error Err.InsufficientFunds) := by
  simp [_transfer, h]

/-- Witness for C6 on the empty ledger. -/
theorem transfer_missing_source_witness :
    emptyLedger.balances 0 = none ∧
    _transfer emptyLedger 0 1 5 = (emptyLedger, Except.error Err.InsufficientFunds) :=
  ⟨rfl, transfer_missing_source_no_mutation emptyLedger 0 1 5 rfl⟩

/-! ### C7: insufficient funds still zero-touches the destination -/

/-- C7 (confirmed): if `from` has a stored balance `b < v`, the transfer
fails with `InsufficientFunds`, `from`'s entry still holds `b`, every
balance other than `to`'s is untouched, allowances and total supply are
untouched, and `to` now holds an explicit entry with its old effective
balance — in particular a fresh zero-valued entry when `to` was absent. -/
theorem transfer_insufficient_funds_zero_touch (s : Ledger) (f t v b : Nat)
    (hf : s.balances f = some b) (hv : b < v) :
    (_transfer s f t v).2 = Except.error Err.InsufficientFunds ∧
    (_transfer s f t v).1.balances f = some b ∧
    (_transfer s f t v).1.balances t = some ((s.balances t).getD 0) ∧
    (∀ x, x ≠ t → (_transfer s f t v).1.balances x = s.balances x) ∧
    (_transfer s f t v).1.allowances = s.allowances ∧
    (_transfer s f t v).1.totalSupply = s.totalSupply := by
  have hnv : ¬ v ≤ _balance_of s f := by
    simp only [_balance_of, hf, Option.getD_some]
    omega
  have hfs : (s.balances f).isSome = true := by simp [hf]
  refine ⟨?_, ?_, ?_, ?_, ?_, ?_⟩
  · unfold _transfer
    simp [hfs, hnv]
  · unfold _transfer
    simp only [hfs, if_true, ge_iff_le, hnv, if_false, check_balances]
    by_cases hft : f = t
    · subst hft
      simp [hf]
    · simp [hft, hf]
  · unfold _transfer
    simp [hfs, hnv, check_balances]
  · unfold _transfer
    intro x hx
    simp [hfs, hnv, check_balances, hx]
  · unfold _transfer
    simp [hfs, hnv, check_allowances]
  · unfold _transfer
    simp [hfs, hnv, check_totalSupply]

/-- Witness for C7: account 0 holds 2, `transfer(0, 1, 5)` fails and
creates a zero entry for the absent account 1. -/
theorem transfer_insufficient_funds_witness :
    ((_balance_set emptyLedger 0 2).balances 0 = some 2 ∧ 2 < 5) ∧
    ((_transfer (_balance_set emptyLedger 0 2) 0 1 5).2 = Except.error Err.InsufficientFunds ∧
      (_transfer (_balance_set emptyLedger 0 2) 0 1 5).1.balances 0 = some 2 ∧
      (_transfer (_balance_set emptyLedger 0 2) 0 1 5).1.balances 1
        = some (((_balance_set emptyLedger 0 2).balances 1).getD 0) ∧
      (∀ x, x ≠ 1 →
        (_transfer (_balance_set emptyLedger 0 2) 0 1 5).1.balances x
          = (_balance_set emptyLedger 0 2).balances x) ∧
      (_transfer (_balance_set emptyLedger 0 2) 0 1 5).1.allowances
        = (_balance_set emptyLedger 0 2).allowances ∧
      (_transfer (_balance_set emptyLedger 0 2) 0 1 5).1.totalSupply
        = (_balance_set emptyLedger 0 2).totalSupply) :=
  ⟨⟨rfl, by decide⟩,
    transfer_insufficient_funds_zero_touch (_balance_set emptyLedger 0 2) 0 1 5 2 rfl
      (by decide)⟩

/-! ### C8: the error kind AccountNotExist is dead -/

/-- C8 (confirmed): no dispatchable — the two queries, `set_balance`,
`transfer`, `approve` or `transfer_from` — ever returns the error kind
`AccountNotExist`, from any starting storage. -/
theorem no_op_signals_account_not_exist (s : Ledger) (op : Op) :
    (runOp s op).2 ≠ Except.error Err.AccountNotExist := by
  cases op with
  | total_supply => simp [runOp]
  | balance_of u => simp [runOp]
  | set_balance w b => simp [runOp]
  | transfer f t v =>
    simp only [runOp]
    unfold _transfer
    split
    · by_cases hc : v ≤ _balance_of s f <;> simp [hc]
    · simp
  | approve f t v =>
    simp only [runOp]
    unfold _approve
    split
    · simp
    · split <;> simp
  | transfer_from f t v =>
    simp only [runOp]
    unfold _transfer_from
    split
    · by_cases hc : v ≤ (_check_if_user_has_balance_or_set_zero s f).1
      · cases ha : (_check_if_user_has_balance_or_set_zero
            (_check_if_user_has_balance_or_set_zero s f).2 t).2.allowances (f, t) with
        | none => simp [hc, ha]
        | some a0 => by_cases hav : v ≤ a0 <;> simp [hc, ha, hav]
      · simp [hc]
    · simp

/-- Witness for C8: a concrete call that fails (missing source) still
does not signal `AccountNotExist`. -/
theorem no_op_signals_account_not_exist_witness :
    (runOp emptyLedger (Op.transfer 0 1 5)).2 ≠ Except.error Err.AccountNotExist :=
  no_op_signals_account_not_exist emptyLedger (Op.transfer 0 1 5)

/-! ### C9: TotalSupply is read-only for the six operations -/

theorem runOp_totalSupply (s : Ledger) (op : Op) :
    (runOp s op).1.totalSupply = s.totalSupply := by
  cases op with
  | total_supply => rfl
  | balance_of u => rfl
  | set_balance w b => rfl
  | transfer f t v =>
    simp only [runOp]
    unfold _transfer
    split
    · by_cases hc : v ≤ _balance_of s f <;>
        simp [hc, balance_set_totalSupply, check_totalSupply]
    · rfl
  | approve f t v =>
    simp only [runOp]
    unfold _approve
    split
    · rfl
    · split <;>
        simp [allowance_insert_totalSupply, balance_set_totalSupply, check_totalSupply]
  | transfer_from f t v =>
    simp only [runOp]
    unfold _transfer_from
    split
    · by_cases hc : v ≤ (_check_if_user_has_balance_or_set_zero s f).1
      · cases ha : (_check_if_user_has_balance_or_set_zero
            (_check_if_user_has_balance_or_set_zero s f).2 t).2.allowances (f, t) with
        | none => simp [hc, ha, check_totalSupply]
        | some a0 =>
          by_cases hav : v ≤ a0 <;>
            simp [hc, ha, hav, allowance_insert_totalSupply, balance_set_totalSupply,
              check_totalSupply]
      · simp [hc, check_totalSupply]
    · rfl

/-- C9 (confirmed): `_total_supply` returns the stored value with 0 as
default, the `total_supply` dispatchable does not change storage, and
no sequence of the six operations ever changes the stored `TotalSupply`
item. -/
theorem total_supply_read_only :
    (∀ s : Ledger, _total_supply s = (s.totalSupply).getD 0) ∧
    (∀ s : Ledger, (runOp s Op.total_supply).1 = s) ∧
    (∀ (s : Ledger) (l : List Op), (runOps s l).totalSupply = s.totalSupply) := by
  refine ⟨fun s => rfl, fun s => rfl, fun s l => ?_⟩
  induction l generalizing s with
  | nil => rfl
  | cons op l ih =>
    have h1 : runOps s (op :: l) = runOps (runOp s op).1 l := rfl
    rw [h1, ih ((runOp s op).1), runOp_totalSupply]

/-! ### C10: self-transfer nets a credit -/

/-- C10 (counterexample): at `b = v = 2^63` the self-transfer's credit
overflows and wraps, so the final balance is 0, not `b + v = 2^64`. -/
theorem C10_self_transfer_wraps :
    (_balance_set emptyLedger 0 (2 ^ 63)).balances 0 = some (2 ^ 63) ∧
    2 ^ 63 ≤ 2 ^ 63 ∧
    (_transfer (_balance_set emptyLedger 0 (2 ^ 63)) 0 0 (2 ^ 63)).2 = Except.ok () ∧
    ¬ (_balance_of (_transfer (_balance_set emptyLedger 0 (2 ^ 63)) 0 0 (2 ^ 63)).1 0
        = 2 ^ 63 + 2 ^ 63) := by decide

/-- C10 (amended): a self-transfer `transfer(a, a, v)` with stored
balance `b ≥ v` succeeds and leaves `a`'s balance at `(b + v) % 2^64` —
equal to `b + v` whenever the sum stays below `2^64` — while every
other balance entry is untouched, so the credit (computed from the
pre-debit read) overwrites the debit and the balance sum grows by `v`
in the non-overflowing case. -/
theorem self_transfer_credits (s : Ledger) (a v b : Nat)
    (hf : s.balances a = some b) (hv : v ≤ b) :
    (_transfer s a a v).2 = Except.ok () ∧
    _balance_of (_transfer s a a v).1 a = (b + v) % U64 ∧
    (b + v < U64 → _balance_of (_transfer s a a v).1 a = b + v) ∧
    (∀ x, x ≠ a → (_transfer s a a v).1.balances x = s.balances x) := by
  have hb : _balance_of s a = b := by simp [_balance_of, hf]
  have hfs : (s.balances a).isSome = true := by simp [hf]
  have h2 : _balance_of (_transfer s a a v).1 a = (b + v) % U64 := by
    unfold _transfer
    simp [hfs, hb, hv, _balance_of, balance_set_balances, check_fst, hf]
  refine ⟨?_, h2, ?_, ?_⟩
  · unfold _transfer
    simp [hfs, hb, hv]
  · intro hlt
    rw [h2]
    exact Nat.mod_eq_of_lt hlt
  · intro x hx
    unfold _transfer
    simp [hfs, hb, hv, balance_set_balances, hx, check_balances]

/-- Witness for the amended C10 on `wLedger2` (account 0 holds 5),
self-transferring 3. -/
theorem self_transfer_credits_witness :
    (wLedger2.balances 0 = some 5 ∧ 3 ≤ 5) ∧
    ((_transfer wLedger2 0 0 3).2 = Except.ok () ∧
      _balance_of (_transfer wLedger2 0 0 3).1 0 = (5 + 3) % U64 ∧
      (5 + 3 < U64 → _balance_of (_transfer wLedger2 0 0 3).1 0 = 5 + 3) ∧
      (∀ x, x ≠ 0 → (_transfer wLedger2 0 0 3).1.balances x = wLedger2.balances x)) :=
  ⟨⟨by decide, by decide⟩, self_transfer_credits wLedger2 0 3 5 (by decide) (by decide)⟩
